import Mathlib

/-!
Verification development for the job-ops repository: a job-board scraper
wrapper (`src/extractors/jobspy/scrape_jobs.py`), an LLM resume-summary
generator (`src/resume-generator/generate_summary.py`), and a browser
automation driver (`src/resume-generator/rxresume_automation.py`).

Python strings are modelled as Lean `String`s, with the Python string
methods used by the scripts (`strip`, `split`, `lower`, `int(...)`)
re-defined over `String.data` so that everything is executable by the
kernel.  Effectful code (HTTP calls, Playwright page interaction,
filesystem writes) is modelled by explicit event traces: each modelled
function returns the ordered list of externally visible actions it
performs together with an `Except` value standing for normal return
versus a raised Python exception.
-/

namespace JobOps

/-! ## Python string primitives -/

/-- ASCII whitespace, modelling the characters removed by Python
`str.strip()` (the rare non-ASCII whitespace codepoints Python also
strips are not used by this repository). -/
def pyIsSpace (c : Char) : Bool :=
  c = ' ' || c = '\t' || c = '\n' || c = '\r' || c = '\x0b' || c = '\x0c'

/-- Strip whitespace from both ends of a character list. -/
def stripL (s : List Char) : List Char :=
  ((s.dropWhile pyIsSpace).reverse.dropWhile pyIsSpace).reverse

/-- Model of Python `str.strip()` with no arguments. -/
def pyStrip (s : String) : String := String.mk (stripL s.data)

/-- Split a character list on a single separator character, Python style:
`"".split(",") = [""]` and separators delimit (possibly empty) fields. -/
def splitCharL (sep : Char) : List Char → List (List Char)
  | [] => [[]]
  | c :: cs =>
    let r := splitCharL sep cs
    if c = sep then [] :: r
    else
      match r with
      | [] => [[c]]
      | h :: t => (c :: h) :: t

/-- Model of Python `str.split(sep)` for a one-character separator. -/
def pySplit (sep : Char) (s : String) : List String :=
  (splitCharL sep s.data).map String.mk

/-- Model of Python `str.lower()` (ASCII case mapping, which covers the
values this repository compares). -/
def pyLower (s : String) : String := String.mk (s.data.map Char.toLower)

/-- Accumulate the value of a decimal digit run; `none` on the first
non-digit character. -/
def digitsAux : List Char → Nat → Option Nat
  | [], acc => some acc
  | c :: cs, acc =>
    if c.isDigit then digitsAux cs (10 * acc + (c.toNat - 48)) else none

/-- Value of a non-empty run of decimal digits, `none` otherwise. -/
def digitsVal : List Char → Option Nat
  | [] => none
  | c :: cs => digitsAux (c :: cs) 0

/-- Model of Python `int(s)` on a string: surrounding whitespace is
ignored, an optional sign is followed by at least one decimal digit;
`none` models a raised `ValueError`.  (Underscore digit separators,
which Python also accepts, are not modelled; the repository never
feeds them.) -/
def pyInt (s : String) : Option Int :=
  match stripL s.data with
  | [] => none
  | c :: cs =>
    if c = '-' then (digitsVal cs).map (fun n => -(n : Int))
    else if c = '+' then (digitsVal cs).map (fun n => (n : Int))
    else (digitsVal (c :: cs)).map (fun n => (n : Int))

/-! ## Environment helpers (`src/extractors/jobspy/scrape_jobs.py`)

`os.getenv(name)` is modelled by an `Option String` argument: `none`
for an unset variable, `some v` for a set one. -/

/-- `_env_str`: `value if value and value.strip() else default`. -/
def _env_str (value : Option String) (default : String) : String :=
  match value with
  | none => default
  | some v =>
    if v = ("") then default
    else if pyStrip v = ("") then default
    else v

/-- `_env_int`: `default` when unset or blank; otherwise `int(value)`,
falling back to `default` when `int` raises `ValueError`. -/
def _env_int (value : Option String) (default : Int) : Int :=
  match value with
  | none => default
  | some v =>
    if pyStrip v = ("") then default
    else
      match pyInt v with
      | none => default
      | some n => n

/-- The tuple of truthy spellings in `_env_bool`. -/
def truthy_values : List String := ["1", "true", "yes", "y", "on"]

/-- `_env_bool`: `default` when unset or blank; otherwise membership of
`value.strip().lower()` in the truthy tuple. -/
def _env_bool (value : Option String) (default : Bool) : Bool :=
  match value with
  | none => default
  | some v =>
    if pyStrip v = ("") then default
    else decide (pyLower (pyStrip v) ∈ truthy_values)

/-- `_parse_sites`: `[s.strip() for s in raw.split(",") if s.strip()]`. -/
def _parse_sites (raw : String) : List String :=
  (pySplit ',' raw).filterMap
    (fun s => if pyStrip s = ("") then none else some (pyStrip s))

/-! ## Theorems for claims C2, C9, C10 -/

/-- Claim C2: for every environment variable read through `_env_str`,
`_env_int` or `_env_bool`, an unset variable (`none`) or a blank value
(empty or whitespace-only, i.e. stripping to the empty string) yields
the stated default, and for `_env_int` a set but non-integer value
(one on which `int` raises `ValueError`) also yields the default
rather than raising. -/
theorem env_defaults_applied (d : String) (di : Int) (db : Bool) (v w : String)
    (hv : pyStrip v = ("")) (hw : pyInt w = none) :
    _env_str none d = d ∧ _env_str (some v) d = d ∧
    _env_int none di = di ∧ _env_int (some v) di = di ∧
    _env_bool none db = db ∧ _env_bool (some v) db = db ∧
    _env_int (some w) di = di := by
  refine ⟨rfl, ?_, rfl, ?_, rfl, ?_, ?_⟩
  · simp [_env_str, hv]
  · simp [_env_int, hv]
  · simp [_env_bool, hv]
  · by_cases hb : pyStrip w = ("")
    · simp [_env_int, hb]
    · simp [_env_int, hb, hw]

/-- Witness for C2 at concrete inputs: default `"x"` / `7` / `true`,
blank value `" "`, non-integer value `"abc"`. -/
theorem env_defaults_applied_witness :
    _env_str none ("x") = ("x") ∧ _env_str (some (" ")) ("x") = ("x") ∧
    _env_int none 7 = 7 ∧ _env_int (some (" ")) 7 = 7 ∧
    _env_bool none true = true ∧ _env_bool (some (" ")) true = true ∧
    _env_int (some ("abc")) 7 = 7 :=
  env_defaults_applied ("x") 7 true (" ") ("abc") (by decide) (by decide)

/-- Claim C9: `_parse_sites` splits its input on commas, strips each
entry, and drops entries that are blank after stripping; in particular
`"indeed, ,linkedin"` parses to `["indeed", "linkedin"]`. -/
theorem parse_sites_spec :
    (∀ raw : String,
      _parse_sites raw =
        ((pySplit ',' raw).map pyStrip).filter (fun s => !(s == (""))) ) ∧
    _parse_sites ("indeed, ,linkedin") = ["indeed", "linkedin"] := by
  constructor
  · intro raw
    unfold _parse_sites
    generalize pySplit ',' raw = l
    induction l with
    | nil => rfl
    | cons h t ih =>
      by_cases hp : pyStrip h = ("")
      · simp [List.filterMap_cons, List.filter_cons, hp, ih]
      · simp [List.filterMap_cons, List.filter_cons, hp, ih]
  · decide

/-- Claim C10: on a non-blank value, `_env_bool` returns `true` exactly
when the stripped, lowercased value is one of `"1"`, `"true"`, `"yes"`,
`"y"`, `"on"`; any other non-blank value yields `false` regardless of
the supplied default (the default plays no role once the value is
non-blank, unlike the `_env_int` fallback). -/
theorem env_bool_nonblank_semantics (v : String) (d : Bool)
    (h : ¬ pyStrip v = ("")) :
    (_env_bool (some v) d = true ↔ pyLower (pyStrip v) ∈ truthy_values) ∧
    _env_bool (some v) true = _env_bool (some v) false ∧
    (pyLower (pyStrip v) ∉ truthy_values → _env_bool (some v) d = false) := by
  refine ⟨?_, ?_, ?_⟩
  · simp [_env_bool, h]
  · simp [_env_bool, h]
  · intro hm
    simp [_env_bool, h, hm]

/-- Witness for C10 at the concrete non-blank, non-truthy value
`"maybe"` with default `true`: the result is `false`, not the default. -/
theorem env_bool_nonblank_semantics_witness :
    _env_bool (some ("maybe")) true = false :=
  (env_bool_nonblank_semantics ("maybe") true (by decide)).2.2 (by decide)

/-! ## Resume-summary generator (`src/resume-generator/generate_summary.py`) -/

/-- Helper: `String.data` distributes over append. -/
theorem append_data (a b : String) : (a ++ b).data = a.data ++ b.data := by
  cases a; cases b; rfl

/-- Text of the prompt template before the serialized profile. -/
def prompt_header : String :=
  "\nYou are generating a tailored résumé summary for me.\n\nRequirements:\n- Use keywords found in the job description.\n- Keep it concise but meaningful. Avoid fluff. Avoid long-winded text.\n- Include just enough detail to feel real and grounded.\n- Gently convey that I care about helping people and doing good work.\n- Do NOT invent experience or skills I don\x27t have.\n- Maintain a warm, confident, human tone.\n- Target THIS specific job directly, so use ATS keywords, while remaining natural.\n- Use the profile to add context and details.\n\nMy profile (JSON fields merged):\n"

/-- Text of the prompt template between the profile and the job
description. -/
def prompt_jd_header : String := "\n\nJob description:\n"

/-- Text of the prompt template after the job description. -/
def prompt_tail : String := "\n\nWrite the résumé summary now.\n"

/-- `_build_prompt`: the f-string template with the serialized profile
and the job description spliced in.  `profileDump` stands for
`json.dumps(profile, indent=2)`, the output of the external JSON
serializer applied to the profile dict. -/
def _build_prompt (profileDump : String) (jd : String) : String :=
  prompt_header ++ profileDump ++ prompt_jd_header ++ jd ++ prompt_tail

/-- A chat message carried in an OpenRouter response choice. -/
structure ChatMessage where
  content : String
deriving DecidableEq

/-- One entry of `data["choices"]` in an OpenRouter response body. -/
structure ChatChoice where
  message : ChatMessage
deriving DecidableEq

/-- The parts of a `requests` response read by `_call_openrouter`:
`status_code`, the raw body `text`, and the parsed `data["choices"]`
list (empty when the body has no usable choices). -/
structure HttpResponse where
  status_code : Nat
  text : String
  choices : List ChatChoice
deriving DecidableEq

/-- `_call_openrouter`, applied to the response the external endpoint
produced: any status other than 200 raises
`RuntimeError(f"OpenRouter error {status}: {body}")`; on 200 the
content of the first choice is returned (an empty choices list models
the `IndexError` Python would raise on `data["choices"][0]`). -/
def _call_openrouter (resp : HttpResponse) : Except String String :=
  if resp.status_code ≠ 200 then
    Except.error (("OpenRouter error ") ++ toString resp.status_code ++ (": ") ++ resp.text)
  else
    match resp.choices with
    | [] => Except.error ("IndexError: list index out of range")
    | c :: _ => Except.ok c.message.content

/-- Externally visible actions of `generate_resume_summary`. -/
inductive SummaryEvent where
  | loadProfileFile
  | readClipboard
  | callApi (prompt : String)
  | copyToClipboard
deriving DecidableEq

/-- Tail of `generate_resume_summary` after the API-key check: build
the prompt, call the endpoint, optionally copy to the clipboard. -/
def summary_rest (profileDump jd : String) (copy_to_clipboard : Bool)
    (resp : HttpResponse) (pre : List SummaryEvent) :
    List SummaryEvent × Except String String :=
  let evs := pre ++ [SummaryEvent.callApi (_build_prompt profileDump jd)]
  match _call_openrouter resp with
  | Except.error e => (evs, Except.error e)
  | Except.ok s =>
    (evs ++ (if copy_to_clipboard then [SummaryEvent.copyToClipboard] else []),
     Except.ok s)

/-- `generate_resume_summary` as an event trace.  `api_key` is
`os.getenv("OPENROUTER_API_KEY")` after `load_dotenv()` (`none` when
unset); `profileDump` stands for the serialized contents of the profile
file; `clipboardText` is what `pyperclip.paste()` would return; `resp`
is the response the external endpoint produces if called.  Python's
`if not api_key` is true for both an unset and an empty value. -/
def generate_resume_summary (api_key : Option String) (profileDump : String)
    (job_description : Option String) (from_clipboard : Bool)
    (clipboardText : String) (copy_to_clipboard : Bool) (resp : HttpResponse) :
    List SummaryEvent × Except String String :=
  match api_key with
  | none => ([], Except.error ("Missing OPENROUTER_API_KEY in .env"))
  | some k =>
    if k = ("") then ([], Except.error ("Missing OPENROUTER_API_KEY in .env"))
    else
      match job_description, from_clipboard with
      | none, false =>
        ([SummaryEvent.loadProfileFile],
         Except.error ("No job description source provided."))
      | none, true =>
        summary_rest profileDump (pyStrip clipboardText) copy_to_clipboard resp
          [SummaryEvent.loadProfileFile, SummaryEvent.readClipboard]
      | some j, _ =>
        summary_rest profileDump j copy_to_clipboard resp
          [SummaryEvent.loadProfileFile]

/-! ## Browser automation (`src/resume-generator/rxresume_automation.py`) -/

/-- Externally visible actions of `login`. -/
inductive LoginEvent where
  | gotoLoginPage
  | fillEmail (v : String)
  | fillPassword (v : String)
  | clickSignIn
  | waitForDashboard
  | clickListView
deriving DecidableEq

/-- `login` as an event trace.  `email` and `password` are
`RXRESUME_EMAIL` and `RXRESUME_PASSWORD`, which default to `""` when
the environment variables are unset; `dashboardReached` models whether
`page.wait_for_url("**/dashboard/resumes", timeout=15000)` succeeds
within its timeout (when it does not, Playwright raises its generic
timeout error).  The function performs no credential check of its own. -/
def login (email password : String) (dashboardReached : Bool) :
    List LoginEvent × Except String Unit :=
  if dashboardReached then
    ([LoginEvent.gotoLoginPage, LoginEvent.fillEmail email,
      LoginEvent.fillPassword password, LoginEvent.clickSignIn,
      LoginEvent.waitForDashboard, LoginEvent.clickListView],
     Except.ok ())
  else
    ([LoginEvent.gotoLoginPage, LoginEvent.fillEmail email,
      LoginEvent.fillPassword password, LoginEvent.clickSignIn],
     Except.error ("Playwright TimeoutError: Timeout 15000ms exceeded."))

/-! ## Theorems for claims C4, C5, C6 -/

/-- Claim C4 (counterexample): the browser-automation script does not
raise an immediate fatal error when `RXRESUME_EMAIL` and
`RXRESUME_PASSWORD` are unset (both default to the empty string): its
first action is already an external navigation to the login page, it
fills the empty credentials into the form, and it either completes
without any error or fails later with a generic Playwright timeout
message that does not mention credentials. -/
theorem login_no_credential_check_counterexample :
    (login ("") ("") false).1.head? = some LoginEvent.gotoLoginPage ∧
    (login ("") ("") false).2 =
      Except.error ("Playwright TimeoutError: Timeout 15000ms exceeded.") ∧
    (login ("") ("") true).2 = Except.ok () :=
  ⟨rfl, rfl, rfl⟩

/-- Claim C4 (amended): the summary generator raises the immediate
fatal error `"Missing OPENROUTER_API_KEY in .env"` before performing
any action (no profile read, no clipboard read, no API call) when the
key is unset or empty; the browser-automation script performs no such
check for `RXRESUME_EMAIL`/`RXRESUME_PASSWORD` — its `login` always
begins with the external navigation to the login page. -/
theorem missing_credentials_behavior (pd : String) (jdesc : Option String)
    (fc : Bool) (clip : String) (cc : Bool) (resp : HttpResponse)
    (email password : String) (dash : Bool) :
    generate_resume_summary none pd jdesc fc clip cc resp
      = ([], Except.error ("Missing OPENROUTER_API_KEY in .env")) ∧
    generate_resume_summary (some ("")) pd jdesc fc clip cc resp
      = ([], Except.error ("Missing OPENROUTER_API_KEY in .env")) ∧
    (login email password dash).1.head? = some LoginEvent.gotoLoginPage := by
  refine ⟨rfl, ?_, ?_⟩
  · simp [generate_resume_summary]
  · cases dash <;> rfl

/-- Claim C5 (counterexample): the response with status 201 (a 2xx
status), body `"Created"` and a non-empty choices list makes
`_call_openrouter` raise rather than return the generated text, so
"every 2xx response returns the generated text without error" is
false of the code, which tests `status_code != 200`. -/
theorem call_openrouter_2xx_counterexample :
    200 ≤ (201 : Nat) ∧ (201 : Nat) < 300 ∧
    _call_openrouter ⟨201, ("Created"), [⟨⟨("hi")⟩⟩]⟩ =
      Except.error (("OpenRouter error ") ++ toString (201 : Nat) ++ (": ") ++ ("Created")) := by
  refine ⟨by decide, by decide, rfl⟩

/-- Claim C5 (amended): `_call_openrouter` returns the first choice's
message content exactly when the status code is 200 (and the parsed
choices list is non-empty); for every status other than 200 it raises
an error whose message is `"OpenRouter error "` followed by the status
code, `": "`, and the response body — embedding both the status code
and the body. -/
theorem call_openrouter_status_behavior (resp : HttpResponse) :
    (resp.status_code = 200 → ∀ c cs, resp.choices = c :: cs →
      _call_openrouter resp = Except.ok c.message.content) ∧
    (¬ resp.status_code = 200 →
      _call_openrouter resp =
        Except.error (("OpenRouter error ") ++ toString resp.status_code ++ (": ") ++ resp.text)) ∧
    (¬ resp.status_code = 200 →
      ∃ msg : String, _call_openrouter resp = Except.error msg ∧
        (∃ a b : List Char, msg.data = a ++ (toString resp.status_code).data ++ b) ∧
        (∃ a b : List Char, msg.data = a ++ resp.text.data ++ b)) := by
  refine ⟨?_, ?_, ?_⟩
  · intro h200 c cs hc
    simp [_call_openrouter, h200, hc]
  · intro hne
    simp [_call_openrouter, hne]
  · intro hne
    refine ⟨("OpenRouter error ") ++ toString resp.status_code ++ (": ") ++ resp.text,
      by simp [_call_openrouter, hne], ?_, ?_⟩
    · refine ⟨(("OpenRouter error ") : String).data,
        ((": ") : String).data ++ resp.text.data, ?_⟩
      simp [append_data, List.append_assoc]
    · refine ⟨(("OpenRouter error ") ++ toString resp.status_code ++ (": ") : String).data,
        [], ?_⟩
      simp [append_data, List.append_assoc]

/-- Witness for C5 (amended) at concrete responses: status 200 with one
choice returns its content; status 500 with body `"oops"` raises the
error embedding status and body. -/
theorem call_openrouter_status_behavior_witness :
    _call_openrouter ⟨200, (""), [⟨⟨("hello")⟩⟩]⟩ = Except.ok ("hello") ∧
    _call_openrouter ⟨500, ("oops"), []⟩ =
      Except.error (("OpenRouter error ") ++ toString ((⟨500, ("oops"), []⟩ : HttpResponse)).status_code ++ (": ") ++ ("oops")) :=
  ⟨(call_openrouter_status_behavior ⟨200, (""), [⟨⟨("hello")⟩⟩]⟩).1 rfl ⟨⟨("hello")⟩⟩ [] rfl,
   (call_openrouter_status_behavior ⟨500, ("oops"), []⟩).2.1 (by decide)⟩

/-- Claim C6: `_build_prompt` is deterministic (equal inputs give equal
prompts) and embeds both the serialized profile and the job description
verbatim: each occurs as a contiguous substring of the prompt. -/
theorem build_prompt_embeds_inputs (p₁ jd₁ p₂ jd₂ : String)
    (hp : p₁ = p₂) (hjd : jd₁ = jd₂) :
    (∃ a b : List Char, (_build_prompt p₁ jd₁).data = a ++ p₁.data ++ b) ∧
    (∃ c d : List Char, (_build_prompt p₁ jd₁).data = c ++ jd₁.data ++ d) ∧
    _build_prompt p₁ jd₁ = _build_prompt p₂ jd₂ := by
  subst hp; subst hjd
  refine ⟨⟨prompt_header.data, (prompt_jd_header ++ jd₁ ++ prompt_tail).data, ?_⟩,
    ⟨(prompt_header ++ p₁ ++ prompt_jd_header).data, prompt_tail.data, ?_⟩, rfl⟩
  · simp [_build_prompt, append_data, List.append_assoc]
  · simp [_build_prompt, append_data, List.append_assoc]

/-- Witness for C6 at concrete inputs `"PROFILE"` and `"JD"`. -/
theorem build_prompt_embeds_inputs_witness :
    (∃ a b : List Char,
      (_build_prompt ("PROFILE") ("JD")).data = a ++ (("PROFILE") : String).data ++ b) ∧
    (∃ c d : List Char,
      (_build_prompt ("PROFILE") ("JD")).data = c ++ (("JD") : String).data ++ d) ∧
    _build_prompt ("PROFILE") ("JD") = _build_prompt ("PROFILE") ("JD") :=
  build_prompt_embeds_inputs ("PROFILE") ("JD") ("PROFILE") ("JD") rfl rfl

/-! ## Import-and-validate flow (`import_resume` in
`src/resume-generator/rxresume_automation.py`)

The page is modelled by which UI conditions hold at each poll instant
(milliseconds) and by what the post-timeout selector queries return. -/

/-- The hardcoded `timeout=10000` of the validation wait. -/
def rx_validation_timeout : Nat := 10000

/-- First instant `t` in `[start, start + fuel)` at which `cond t`
holds, `none` when there is no such instant: the generic polling wait
underlying `page.wait_for_selector(..., timeout=...)`. -/
def firstHitFrom (cond : Nat → Bool) : Nat → Nat → Option Nat
  | 0, _ => none
  | fuel + 1, t => if cond t then some t else firstHitFrom cond fuel (t + 1)

/-- The page state `import_resume` interacts with:
`importEnabledAt t` says whether the selector
matching an enabled Import button would be satisfied at instant `t`;
`errorVisibleAt t` whether a validation error message is visible at
instant `t`; `selectorText sel` what
`page.query_selector(sel).inner_text()` returns after the wait
(`none` when no element matches); `dialogText` the inner text of the
dialog element, if one exists. -/
structure RxPage where
  importEnabledAt : Nat → Bool
  errorVisibleAt : Nat → Bool
  selectorText : String → Option String
  dialogText : Option String

/-- The fixed list of selectors scanned for human-readable error text. -/
def error_selectors : List String :=
  ["text=/error|invalid|failed/i",
   "[class*=\"error\"]",
   "[class*=\"destructive\"]",
   ".text-red-500",
   ".text-destructive",
   "[role=\"alert\"]"]

/-- The selector scan of the failure path: the first selector whose
element exists and whose stripped inner text is non-empty yields that
stripped text. -/
def scanErrorText (q : String → Option String) : Option String :=
  error_selectors.findSome? (fun sel =>
    match q sel with
    | none => none
    | some txt => if pyStrip txt = ("") then none else some (pyStrip txt))

/-- Externally visible actions of `import_resume` (the initial
read-only JSON logging block is pure logging and is not modelled). -/
inductive ImportEvent where
  | clickImportTab
  | uploadFile (path : String)
  | clickValidate
  | mkdirErrorsDir
  | writeScreenshot (path : String)
  | copyFailedJson (dest : String)
  | scanErrorSelectors
  | logDialog (text : String)
  | clickImportConfirm
deriving DecidableEq

/-- Filesystem-write actions of the flow: creating the errors
directory, writing the debug screenshot, copying the failed JSON. -/
def isFsWrite : ImportEvent → Bool
  | ImportEvent.mkdirErrorsDir => true
  | ImportEvent.writeScreenshot _ => true
  | ImportEvent.copyFailedJson _ => true
  | _ => false

/-- `import_resume` as an event trace: click the Import tab, upload the
file, click Validate, then wait (up to `rx_validation_timeout`) for the
enabled Import button.  On success the Import button is clicked; on
timeout the errors directory is created, a screenshot
`errors/debug_<stem>.png` and a copy `errors/<stem>.json` are written,
the error selectors are scanned, and either
`RuntimeError("RXResume validation failed: <text>")` is raised with the
first non-empty stripped selector text, or — when no selector yields
text — the dialog content (truncated to 500 characters) is logged and
the timeout `RuntimeError` is raised.  (The Python timeout message also
interpolates the caught exception after a colon; the model keeps the
fixed prefix.) -/
def import_resume (page : RxPage) (jsonPath : String) (stem : String) :
    List ImportEvent × Except String Unit :=
  let pre := [ImportEvent.clickImportTab, ImportEvent.uploadFile jsonPath,
    ImportEvent.clickValidate]
  match firstHitFrom page.importEnabledAt rx_validation_timeout 0 with
  | some _ => (pre ++ [ImportEvent.clickImportConfirm], Except.ok ())
  | none =>
    let diag := [ImportEvent.mkdirErrorsDir,
      ImportEvent.writeScreenshot (("errors/debug_") ++ stem ++ (".png")),
      ImportEvent.copyFailedJson (("errors/") ++ stem ++ (".json")),
      ImportEvent.scanErrorSelectors]
    match scanErrorText page.selectorText with
    | some t => (pre ++ diag, Except.error (("RXResume validation failed: ") ++ t))
    | none =>
      let dlog := match page.dialogText with
        | some d => [ImportEvent.logDialog (String.mk (d.data.take 500))]
        | none => []
      (pre ++ diag ++ dlog,
       Except.error ("Import button not found after validation (timeout)"))

/-- Instant at which the validation wait ends: the first instant the
Import button is enabled, or the full timeout when it never is. -/
def waitImportEnd (page : RxPage) : Nat :=
  match firstHitFrom page.importEnabledAt rx_validation_timeout 0 with
  | some t => t
  | none => rx_validation_timeout

/-- Modelled from the spec: the wait the specification describes, which
would terminate as soon as either terminal condition holds — the
enabled confirm affordance or an error message becoming visible. -/
def specWaitEnd (page : RxPage) : Nat :=
  match firstHitFrom (fun t => page.importEnabledAt t || page.errorVisibleAt t)
      rx_validation_timeout 0 with
  | some t => t
  | none => rx_validation_timeout

/-- A wait on an always-false condition exhausts its fuel. -/
theorem firstHitFrom_const_false :
    ∀ (fuel t : Nat), firstHitFrom (fun _ => false) fuel t = none := by
  intro fuel
  induction fuel with
  | zero => intro t; rfl
  | succ n ih => intro t; simp [firstHitFrom, ih]

/-- What a successful wait means: the condition holds at the returned
instant, the instant lies in the fuel window, and the condition fails
at all earlier instants of the window. -/
theorem firstHitFrom_eq_some (cond : Nat → Bool) :
    ∀ (fuel start t : Nat), firstHitFrom cond fuel start = some t →
      cond t = true ∧ start ≤ t ∧ t < start + fuel ∧
      (∀ s, start ≤ s → s < t → cond s = false) := by
  intro fuel
  induction fuel with
  | zero => intro start t h; exact absurd h (by simp [firstHitFrom])
  | succ n ih =>
    intro start t h
    rw [firstHitFrom] at h
    by_cases hc : cond start
    · rw [if_pos hc] at h
      obtain rfl : start = t := Option.some.inj h
      exact ⟨hc, le_refl _, by omega, fun s hs hst => absurd hst (by omega)⟩
    · rw [if_neg hc] at h
      obtain ⟨h1, h2, h3, h4⟩ := ih (start + 1) t h
      refine ⟨h1, by omega, by omega, ?_⟩
      intro s hs hst
      rcases Nat.eq_or_lt_of_le hs with heq | hlt
      · simpa [← heq] using hc
      · exact h4 s hlt hst

/-- A wait on a condition false throughout the window exhausts its
fuel. -/
theorem firstHitFrom_eq_none (cond : Nat → Bool) (fuel start : Nat)
    (h : ∀ s, start ≤ s → s < start + fuel → cond s = false) :
    firstHitFrom cond fuel start = none := by
  rcases hv : firstHitFrom cond fuel start with _ | t
  · rfl
  · obtain ⟨h1, h2, h3, _⟩ := firstHitFrom_eq_some cond fuel start t hv
    rw [h t h2 h3] at h1
    cases h1

/-! ## Theorems for claims C1, C3, C7, C8 -/

/-- Claim C1: when the wait for an enabled Import button times out, the
flow writes a debug screenshot and a copy of the failed input JSON into
the errors directory and scans the fixed selector list; when some
selector yields non-empty stripped text the raised error message
carries that scraped text; when none does, the dialog content
(truncated to 500 characters) is logged and the descriptive timeout
error is raised instead; and the flow never retries: the upload and the
validate click each occur exactly once in the trace. -/
theorem import_resume_failure_diagnostics (page : RxPage) (jsonPath stem : String)
    (h : firstHitFrom page.importEnabledAt rx_validation_timeout 0 = none) :
    ImportEvent.mkdirErrorsDir ∈ (import_resume page jsonPath stem).1 ∧
    ImportEvent.writeScreenshot (("errors/debug_") ++ stem ++ (".png"))
      ∈ (import_resume page jsonPath stem).1 ∧
    ImportEvent.copyFailedJson (("errors/") ++ stem ++ (".json"))
      ∈ (import_resume page jsonPath stem).1 ∧
    ImportEvent.scanErrorSelectors ∈ (import_resume page jsonPath stem).1 ∧
    (∀ t, scanErrorText page.selectorText = some t →
      (import_resume page jsonPath stem).2 =
        Except.error (("RXResume validation failed: ") ++ t)) ∧
    (scanErrorText page.selectorText = none →
      (import_resume page jsonPath stem).2 =
        Except.error ("Import button not found after validation (timeout)") ∧
      (∀ d, page.dialogText = some d →
        ImportEvent.logDialog (String.mk (d.data.take 500))
          ∈ (import_resume page jsonPath stem).1)) ∧
    (import_resume page jsonPath stem).1.count (ImportEvent.uploadFile jsonPath) = 1 ∧
    (import_resume page jsonPath stem).1.count ImportEvent.clickValidate = 1 := by
  unfold import_resume
  rw [h]
  rcases hscan : scanErrorText page.selectorText with _ | t
  · rcases hd : page.dialogText with _ | d
    · simp [List.count_append, List.count_cons]
    · simp [List.count_append, List.count_cons]
  · simp [List.count_append, List.count_cons]

/-- A concrete failing page: the Import button never enables, the
alert-role selector carries the text `" Invalid JSON "`, and a dialog
is present. -/
def pageFail : RxPage where
  importEnabledAt := fun _ => false
  errorVisibleAt := fun _ => true
  selectorText := fun sel =>
    if sel = ("[role=\"alert\"]") then some (" Invalid JSON ") else none
  dialogText := some ("dialog body")

/-- Witness for C1 on `pageFail`: the wait times out, the diagnostics
events are in the trace, the raised message carries the scraped text
`"Invalid JSON"`, and the upload happens exactly once. -/
theorem import_resume_failure_diagnostics_witness :
    firstHitFrom pageFail.importEnabledAt rx_validation_timeout 0 = none ∧
    ImportEvent.mkdirErrorsDir ∈ (import_resume pageFail ("base.json") ("base")).1 ∧
    ImportEvent.writeScreenshot (("errors/debug_") ++ ("base") ++ (".png"))
      ∈ (import_resume pageFail ("base.json") ("base")).1 ∧
    ImportEvent.copyFailedJson (("errors/") ++ ("base") ++ (".json"))
      ∈ (import_resume pageFail ("base.json") ("base")).1 ∧
    (import_resume pageFail ("base.json") ("base")).2 =
      Except.error (("RXResume validation failed: ") ++ ("Invalid JSON")) ∧
    (import_resume pageFail ("base.json") ("base")).1.count
      (ImportEvent.uploadFile ("base.json")) = 1 :=
  have h : firstHitFrom pageFail.importEnabledAt rx_validation_timeout 0 = none :=
    firstHitFrom_const_false rx_validation_timeout 0
  have main := import_resume_failure_diagnostics pageFail ("base.json") ("base") h
  ⟨h, main.1, main.2.1, main.2.2.1,
   main.2.2.2.2.1 ("Invalid JSON") (by decide),
   main.2.2.2.2.2.2.1⟩

/-- Claim C3 (counterexample): on a page whose validation error message
is visible from the very first instant while the Import button never
enables, the wait the spec describes would terminate immediately (at
instant 0), but the coded wait watches only the Import-button selector
and runs the full 10000 ms timeout — so the flow does not terminate
its wait as soon as either terminal condition holds. -/
theorem wait_ignores_error_counterexample :
    specWaitEnd pageFail = 0 ∧
    waitImportEnd pageFail = rx_validation_timeout ∧
    waitImportEnd pageFail ≠ specWaitEnd pageFail := by
  have h1 : specWaitEnd pageFail = 0 := rfl
  have h2 : waitImportEnd pageFail = rx_validation_timeout := by
    unfold waitImportEnd
    rw [show firstHitFrom pageFail.importEnabledAt rx_validation_timeout 0 = none from
      firstHitFrom_const_false rx_validation_timeout 0]
  refine ⟨h1, h2, ?_⟩
  rw [h1, h2]
  decide

/-- Claim C3 (amended): after triggering the upload and the validation
action, the flow waits, bounded by the 10000 ms timeout, solely for the
enabled Import button: the wait ends at the first instant that button
is enabled (and at no earlier instant was it enabled), it runs the full
timeout when the button never enables within the window, and the end of
the wait is independent of when (or whether) an error message becomes
visible — error visibility is only consulted after the wait has timed
out. -/
theorem waitImportEnd_only_confirm (page : RxPage) :
    (waitImportEnd page < rx_validation_timeout →
      page.importEnabledAt (waitImportEnd page) = true ∧
      ∀ s, s < waitImportEnd page → page.importEnabledAt s = false) ∧
    ((∀ s, s < rx_validation_timeout → page.importEnabledAt s = false) →
      waitImportEnd page = rx_validation_timeout) ∧
    (∀ q : RxPage, q.importEnabledAt = page.importEnabledAt →
      waitImportEnd q = waitImportEnd page) := by
  refine ⟨?_, ?_, ?_⟩
  · intro hlt
    unfold waitImportEnd at hlt ⊢
    rcases hv : firstHitFrom page.importEnabledAt rx_validation_timeout 0 with _ | t
    · rw [hv] at hlt
      exact absurd hlt (lt_irrefl _)
    · obtain ⟨h1, _, _, h4⟩ :=
        firstHitFrom_eq_some page.importEnabledAt rx_validation_timeout 0 t hv
      exact ⟨h1, fun s hs => h4 s (Nat.zero_le s) hs⟩
  · intro hall
    unfold waitImportEnd
    rw [firstHitFrom_eq_none page.importEnabledAt rx_validation_timeout 0
      (fun s _ hs => hall s (by omega))]
  · intro q hq
    unfold waitImportEnd
    rw [hq]

/-- A concrete page whose Import button enables at instant 2. -/
def pageHit : RxPage where
  importEnabledAt := fun t => decide (t = 2)
  errorVisibleAt := fun _ => false
  selectorText := fun _ => none
  dialogText := none

/-- Witness for C3 (amended) on `pageHit`: the wait ends before the
timeout, at an instant where the Import button is enabled. -/
theorem waitImportEnd_only_confirm_witness :
    waitImportEnd pageHit < rx_validation_timeout ∧
    pageHit.importEnabledAt (waitImportEnd pageHit) = true :=
  ⟨by decide, ((waitImportEnd_only_confirm pageHit).1 (by decide)).1⟩

/-- Claim C7: when the enabled Import button appears before the
timeout, the trace is exactly tab click, upload, validate click,
confirm click — the confirm fires exactly once, no filesystem write
occurs, and the error-selector scan is never executed. -/
theorem import_resume_success_confirm_once (page : RxPage)
    (jsonPath stem : String) (t : Nat)
    (h : firstHitFrom page.importEnabledAt rx_validation_timeout 0 = some t) :
    (import_resume page jsonPath stem).1 =
      [ImportEvent.clickImportTab, ImportEvent.uploadFile jsonPath,
       ImportEvent.clickValidate, ImportEvent.clickImportConfirm] ∧
    (import_resume page jsonPath stem).1.count ImportEvent.clickImportConfirm = 1 ∧
    (import_resume page jsonPath stem).1.countP (fun e => isFsWrite e) = 0 ∧
    (import_resume page jsonPath stem).1.count ImportEvent.scanErrorSelectors = 0 ∧
    (import_resume page jsonPath stem).2 = Except.ok () := by
  unfold import_resume
  rw [h]
  refine ⟨rfl, ?_, ?_, ?_, rfl⟩
  · simp [List.count_append, List.count_cons]
  · simp [List.countP_append, List.countP_cons, isFsWrite]
  · simp [List.count_append, List.count_cons]

/-- A concrete page whose Import button is enabled from instant 0. -/
def pageOk : RxPage where
  importEnabledAt := fun _ => true
  errorVisibleAt := fun _ => false
  selectorText := fun _ => none
  dialogText := none

/-- Witness for C7 on `pageOk`: the wait succeeds immediately and the
confirm click fires exactly once with no filesystem writes. -/
theorem import_resume_success_confirm_once_witness :
    firstHitFrom pageOk.importEnabledAt rx_validation_timeout 0 = some 0 ∧
    (import_resume pageOk ("base.json") ("base")).1.count
      ImportEvent.clickImportConfirm = 1 ∧
    (import_resume pageOk ("base.json") ("base")).1.countP
      (fun e => isFsWrite e) = 0 :=
  have h : firstHitFrom pageOk.importEnabledAt rx_validation_timeout 0 = some 0 := by
    decide
  have main := import_resume_success_confirm_once pageOk ("base.json") ("base") 0 h
  ⟨h, main.2.1, main.2.2.1⟩

/-- Claim C8: `import_resume` performs filesystem writes only on its
failure path — every run that returns successfully has a trace with no
write event (no errors-directory creation, no screenshot, no JSON
copy). -/
theorem import_resume_success_no_writes (page : RxPage) (jsonPath stem : String)
    (h : (import_resume page jsonPath stem).2 = Except.ok ()) :
    (import_resume page jsonPath stem).1.countP (fun e => isFsWrite e) = 0 := by
  rcases hv : firstHitFrom page.importEnabledAt rx_validation_timeout 0 with _ | t
  · exfalso
    unfold import_resume at h
    rw [hv] at h
    rcases hscan : scanErrorText page.selectorText with _ | t
    · rcases hd : page.dialogText with _ | d <;> rw [hscan, hd] at h <;> simp at h
    · rw [hscan] at h; simp at h
  · unfold import_resume
    rw [hv]
    simp [List.countP_append, List.countP_cons, isFsWrite]

/-- Witness for C8 on `pageOk`: a successful run has no write events. -/
theorem import_resume_success_no_writes_witness :
    (import_resume pageOk ("base.json") ("base")).2 = Except.ok () ∧
    (import_resume pageOk ("base.json") ("base")).1.countP
      (fun e => isFsWrite e) = 0 :=
  have h : (import_resume pageOk ("base.json") ("base")).2 = Except.ok () := rfl
  ⟨h, import_resume_success_no_writes pageOk ("base.json") ("base") h⟩

end JobOps
